import Mathlib

/-!
# NodeGaze — verification of the event propagation / notification layer

Shallow embedding of the NodeGaze frontend proxy routes and UI logic
(Next.js/TypeScript) together with the spec-modelled delivery engine,
and proofs of the frozen claims about them.

Conventions for the JS embedding:
* JS strings are Lean `String`s; a missing/undefined string field is `""`
  (both are falsy in the JS code being modelled, which only tests them
  with `!x` / `x || y`).
* `a || b` on strings is `jsOr`, `!s` truthiness is `jsTruthy`.
* `s.startsWith(p)` is `jsStartsWith`.
* A fetch / `response.json()` that throws is modelled by the backend
  argument being `none`; the `catch` branch of each handler handles it.
-/

namespace NodeGaze

/-- JS string truthiness: a string is truthy iff it is non-empty. -/
def jsTruthy (s : String) : Bool := s ≠ ""

/-- JS `a || b` specialised to strings: `b` when `a` is falsy (empty). -/
def jsOr (a b : String) : String := if jsTruthy a then a else b

/-- JS `s.startsWith(p)`. -/
def jsStartsWith (s p : String) : Bool := p.data.isPrefixOf s.data

/-- JS `s.toLowerCase()` (character-wise lowering; the code only applies
it to the ASCII strings `"Webhook"` / `"Discord"`). -/
def jsToLower (s : String) : String := ⟨s.data.map Char.toLower⟩

/-! ## Data model (frontend interfaces)

`Notification` from the `Notification` interface in the events page
(src/unnamed/part_013 lines 85–97); `Event` from the `Event` interface in
the endpoint-details page (src/unnamed/part_014 lines 38–56).  The opaque
`data` payload of an event is irrelevant to every claim and omitted. -/

structure Notification where
  id : String
  account_id : String
  user_id : String
  name : String
  notification_type : String
  url : String
  is_active : Bool
  deriving DecidableEq, Repr

structure Event where
  id : String
  account_id : String
  user_id : String
  node_id : String
  node_alias : String
  event_type : String
  severity : String
  title : String
  description : String
  notifications_id : String
  timestamp : String
  deriving DecidableEq, Repr

/-! ## Endpoint-details page (src/unnamed/part_014) -/

/-- Events shown on the endpoint-details page for a notification id:
`eventsResult.data.items.filter((event) => event.notifications_id === notificationId)`
(src/unnamed/part_014 lines 163–165). -/
def eventsForNotification (events : List Event) (notificationId : String) :
    List Event :=
  events.filter (fun e => e.notifications_id == notificationId)

/-- The set of endpoints that receive/display a given event, read off the
endpoint-details page: endpoint `n` shows event `e` iff
`e.notifications_id === n.id` (src/unnamed/part_014 lines 163–165). -/
def matchedEndpoints (registry : List Notification) (e : Event) :
    List Notification :=
  registry.filter (fun n => e.notifications_id == n.id)

/-- Modelled from the spec: the Notification Registry read path
`list_active(account_id)` (§4.2) — the backend registry code is not under
src/.  Active, account-owned endpoints. -/
def list_active (registry : List Notification) (accountId : String) :
    List Notification :=
  registry.filter (fun n => n.is_active && n.account_id == accountId)

/-- The "Success" figure on the endpoint-details page:
`events.filter((e) => e.severity === "Info").length`
(src/unnamed/part_014 lines 376–377). -/
def successCount (events : List Event) : Nat :=
  (events.filter (fun e => e.severity == "Info")).length

/-- The success count actually displayed for an endpoint: the page first
restricts the fetched events to the endpoint (`eventsForNotification`),
then counts the `"Info"`-severity ones. -/
def displayedSuccessCount (allEvents : List Event) (notificationId : String) :
    Nat :=
  successCount (eventsForNotification allEvents notificationId)

/-- `getSeverityColor` (src/unnamed/part_014 lines 207–218): the switch on
the severity string, with its default branch. -/
def getSeverityColor (severity : String) : String :=
  if severity == "Info" then "bg-blue-100 text-blue-800"
  else if severity == "Warning" then "bg-yellow-100 text-yellow-800"
  else if severity == "Error" then "bg-red-100 text-red-800"
  else "bg-gray-100 text-gray-800"

/-! ## Pagination (src/unnamed/part_013 lines 122–136, identical copy in
src/unnamed/part_014 lines 220–234)

JS numbers are embedded as `ℤ` (all arithmetic here is exact integer
arithmetic).  `maxVisible = 5`, `Math.floor(maxVisible / 2) = 2`. -/

/-- `let start = Math.max(1, currentPage - Math.floor(maxVisible / 2))`. -/
def pagStart0 (currentPage : ℤ) : ℤ := max 1 (currentPage - 2)

/-- `const end = Math.min(totalPages, start + maxVisible - 1)`. -/
def pagEnd (currentPage totalPages : ℤ) : ℤ :=
  min totalPages (pagStart0 currentPage + 4)

/-- `if (end - start + 1 < maxVisible) { start = Math.max(1, end - maxVisible + 1); }`. -/
def pagStart (currentPage totalPages : ℤ) : ℤ :=
  if pagEnd currentPage totalPages - pagStart0 currentPage + 1 < 5 then
    max 1 (pagEnd currentPage totalPages - 4)
  else pagStart0 currentPage

/-- `getPaginationNumbers`: `for (let i = start; i <= end; i++) pages.push(i)` —
the list `start, start+1, …, end` (empty when `end < start`). -/
def getPaginationNumbers (currentPage totalPages : ℤ) : List ℤ :=
  (List.range (pagEnd currentPage totalPages - pagStart currentPage totalPages + 1).toNat).map
    (fun i : ℕ => pagStart currentPage totalPages + (i : ℤ))

/-! ## Proxy routes

Each Next.js route handler is embedded as a pure function of
* the server-side session's access token (`Option String`; `none` = no
  session, `some ""` = session without a usable token — both fail the JS
  check `!session?.accessToken`),
* the already-parsed request data where the handler reads any, and
* the backend's response (`Option BackendResp`; `none` models the
  `fetch`/`response.json()` call throwing, which lands in the handler's
  `catch` branch).

The result records the HTTP status, the `error` field of the JSON body
the route returns (`""` when the route returns a success body), and
whether the backend `fetch` was executed at all. -/

/-- The JSON body of a backend response, as far as the routes read it:
`ok`/`status` of the `fetch` response and the `message` / `error` fields
of the parsed body (`""` for an absent field, and for the
`.catch(() => ({}))` parse-failure fallback). -/
structure BackendResp where
  ok : Bool
  status : Nat
  messageField : String
  errorField : String
  deriving DecidableEq, Repr

/-- Result of running a route handler. -/
structure HandlerResult where
  status : Nat
  errorMsg : String
  backendCalled : Bool
  deriving DecidableEq, Repr

/-- The JS guard `!session?.accessToken`. -/
def hasAccessToken (session : Option String) : Bool :=
  match session with
  | none => false
  | some t => jsTruthy t

/-- `GET /api/notifications` (src/unnamed/part_012 lines 15–73). -/
def notificationsGET (session : Option String) (backend : Option BackendResp) :
    HandlerResult :=
  if !hasAccessToken session then
    ⟨401, "Unauthorized. Please log in again.", false⟩
  else
    match backend with
    | none => ⟨500, "Internal server error", true⟩
    | some r =>
      if !r.ok then
        ⟨r.status, jsOr r.messageField "Failed to retrieve notifications", true⟩
      else ⟨200, "", true⟩

/-- The request body read by the notifications POST route:
`const { name, notification_type, url } = body` (src/unnamed/part_012
line 99).  This is also exactly the body the client submit handler sends
(src/unnamed/part_013 lines 223–227): no other field exists. -/
structure CreateNotificationBody where
  name : String
  notification_type : String
  url : String
  deriving DecidableEq, Repr

/-- `POST /api/notifications` (src/unnamed/part_012 lines 75–179):
auth check, required-field check, type check, per-type URL-scheme checks,
then the backend call. -/
def notificationsPOST (session : Option String) (body : CreateNotificationBody)
    (backend : Option BackendResp) : HandlerResult :=
  if !hasAccessToken session then
    ⟨401, "Unauthorized. Please log in again.", false⟩
  else if !(jsTruthy body.name && jsTruthy body.notification_type && jsTruthy body.url) then
    ⟨400, "Missing required fields: name, notification_type, and url are required", false⟩
  else if !(body.notification_type == "Webhook" || body.notification_type == "Discord") then
    ⟨400, "Invalid notification_type. Must be 'Webhook' or 'Discord'", false⟩
  else if body.notification_type == "Webhook" && !jsStartsWith body.url "https://" then
    ⟨400, "Webhook URL must start with https://", false⟩
  else if body.notification_type == "Discord" &&
      !jsStartsWith body.url "https://discord.com/api/webhooks/" then
    ⟨400, "Discord URL must be a valid Discord webhook URL", false⟩
  else
    match backend with
    | none => ⟨500, "Internal server error", true⟩
    | some r =>
      if !r.ok then
        ⟨r.status,
         jsOr r.messageField
           ("Failed to create " ++ jsToLower body.notification_type ++ " notification"),
         true⟩
      else ⟨201, "", true⟩

/-- `GET /api/events` (src/frontend/src/app/channels/page.tsx lines 26–81).
The `catch` branch returns `error.message` when a JS `Error` was thrown;
the model keeps only the fixed fallback text, the claims only concern the
500 status of that branch. -/
def eventsGET (session : Option String) (backend : Option BackendResp) :
    HandlerResult :=
  if !hasAccessToken session then
    ⟨401, "Unauthorized - no access token", false⟩
  else
    match backend with
    | none => ⟨500, "Internal server error", true⟩
    | some r =>
      if !r.ok then
        ⟨r.status, jsOr (jsOr r.errorField r.messageField) "Failed to fetch events", true⟩
      else ⟨200, "", true⟩

/-- The query string the events proxy sends to the backend.  The route
handler is declared `export async function GET()` — it receives no
request object, and the backend URL is the constant
`${BACKEND_URL}/api/events` (src/frontend/src/app/channels/page.tsx
line 42): whatever query parameters the caller supplied are unavailable
to the handler and are not appended. -/
def eventsBackendQuery (incomingQuery : List (String × String)) :
    List (String × String) :=
  []

/-- The path part of the backend URL built by the events proxy, again
independent of the caller's query parameters. -/
def eventsBackendPath (incomingQuery : List (String × String)) : String :=
  "/api/events"

/-- `GET /api/events/[id]` (src/frontend/src/app/api/events/[id]/route.ts). -/
def eventDetailsGET (session : Option String) (id : String)
    (backend : Option BackendResp) : HandlerResult :=
  if !hasAccessToken session then
    ⟨401, "Unauthorized - no access token", false⟩
  else
    match backend with
    | none => ⟨500, "Internal server error", true⟩
    | some r =>
      if !r.ok then
        ⟨r.status,
         jsOr (jsOr r.errorField r.messageField) "Failed to fetch event details", true⟩
      else ⟨200, "", true⟩

/-! ## Client-side create-notification pipeline

The dialog (src/frontend/src/components/notification-dialog.tsx,
`handleSubmit` lines 36–65) validates the URL and calls `onSubmit` with
`{eventType, url, secret, description}`; the page handler
(src/unnamed/part_013, `handleSubmit` lines 195–267) builds the request
body `{name, notification_type, url}` from it. -/

/-- The argument the dialog passes to `onSubmit`. -/
structure DialogData where
  eventType : String
  url : String
  secret : String
  description : String
  deriving DecidableEq, Repr

/-- Dialog `handleSubmit`: the two URL validations (each `return`s without
submitting), then `onSubmit({eventType: selectedEvent, url, secret, description})`. -/
def dialogSubmit (selectedEvent webhookUrl webhookSecret description : String) :
    Option DialogData :=
  if !jsStartsWith webhookUrl "https://" && selectedEvent == "webhook" then none
  else if selectedEvent == "discord" &&
      !jsStartsWith webhookUrl "https://discord.com/api/webhooks/" then none
  else some ⟨selectedEvent, webhookUrl, webhookSecret, description⟩

/-- Page `handleSubmit` (src/unnamed/part_013 lines 213–227): maps the
dialog data to the JSON body sent to `POST /api/notifications` — the body
has exactly the fields `name`, `notification_type`, `url`. -/
def pageSubmitBody (data : DialogData) : CreateNotificationBody :=
  let notification_type := if data.eventType == "webhook" then "Webhook" else "Discord"
  { name := jsOr data.description (notification_type ++ " Alert")
    notification_type := notification_type
    url := data.url }

/-- The full client pipeline: what request body (if any) a dialog
submission produces. -/
def clientSubmitRequest (selectedEvent webhookUrl webhookSecret description : String) :
    Option CreateNotificationBody :=
  (dialogSubmit selectedEvent webhookUrl webhookSecret description).map pageSubmitBody

/-! ## Delivery engine (spec-modelled)

The backend delivery engine is not under src/ (the repository ships only
the frontend and its proxy routes); the state machine below is modelled
from spec §4.5. -/

/-- Modelled from the spec: the observable outcome of one HTTP delivery
attempt (§4.5 step 2–3) — an HTTP response with a status code, a timeout,
or a connection error.  The backend delivery code is absent from src/. -/
inductive DeliveryOutcome where
  | response (status : Nat)
  | timeout
  | connectionError
  deriving DecidableEq, Repr

/-- Delivery-attempt status (spec §3, `DeliveryAttempt.status`). -/
inductive AttemptStatus where
  | Pending
  | Succeeded
  | Failed
  deriving DecidableEq, Repr

/-- Modelled from the spec: classification of an attempt outcome
(§4.5 steps 2–3): 2xx → success; 4xx other than 429 → permanent
(non-retryable) failure; 429, 5xx, timeouts and connection errors →
retryable. -/
inductive Classification where
  | success
  | permanent
  | retryable
  deriving DecidableEq, Repr

/-- Modelled from the spec: outcome classification (§4.5). -/
def classify : DeliveryOutcome → Classification
  | .response s =>
    if 200 ≤ s ∧ s < 300 then .success
    else if 400 ≤ s ∧ s < 500 ∧ s ≠ 429 then .permanent
    else .retryable
  | .timeout => .retryable
  | .connectionError => .retryable

/-- The `http_status` recorded for an outcome (`none` for timeouts and
connection errors). -/
def httpStatusOf : DeliveryOutcome → Option Nat
  | .response s => some s
  | .timeout => none
  | .connectionError => none

/-- One immutable delivery-ledger row (spec §3 `DeliveryAttempt`,
restricted to the fields the claims are about): the attempt number, the
attempt's status, the HTTP status, and whether a retry was scheduled
after this attempt (§3 `next_retry_at` non-null). -/
structure DeliveryAttempt where
  attempt_number : Nat
  status : AttemptStatus
  http_status : Option Nat
  retryScheduled : Bool
  deriving DecidableEq, Repr

/-- Modelled from the spec: configured maximum attempt count ("e.g. 5",
§4.5 step 4). -/
def maxAttempts : Nat := 5

/-- Modelled from the spec: the delivery loop for one (event,
notification) pair (§4.5).  `n` is the current attempt number,
`remaining` the number of attempts still allowed; each attempt appends
one ledger row.  Success is terminal; a permanent (4xx non-429) failure
is terminal with no retry scheduled; a retryable failure schedules a
retry unless attempts are exhausted, in which case the pair fails
terminally. -/
def deliverAux (outcomes : Nat → DeliveryOutcome) :
    Nat → Nat → List DeliveryAttempt × AttemptStatus
  | _, 0 => ([], .Failed)
  | n, remaining + 1 =>
    let oc := outcomes n
    match classify oc with
    | .success => ([⟨n, .Succeeded, httpStatusOf oc, false⟩], .Succeeded)
    | .permanent => ([⟨n, .Failed, httpStatusOf oc, false⟩], .Failed)
    | .retryable =>
      if remaining = 0 then ([⟨n, .Failed, httpStatusOf oc, false⟩], .Failed)
      else
        let rest := deliverAux outcomes (n + 1) remaining
        (⟨n, .Failed, httpStatusOf oc, true⟩ :: rest.1, rest.2)

/-- Modelled from the spec: run delivery for one (event, notification)
pair, starting at `attempt_number = 1` (§4.5 step 1), given the outcome
of each attempt.  Returns the ledger rows written and the terminal
state. -/
def deliver (outcomes : Nat → DeliveryOutcome) :
    List DeliveryAttempt × AttemptStatus :=
  deliverAux outcomes 1 maxAttempts

/-! ## Helper lemmas -/

/-- JS `a || b` keeps `a` when `a` is truthy. -/
lemma jsOr_of_ne {a b : String} (h : a ≠ "") : jsOr a b = a := by
  simp [jsOr, jsTruthy, h]

/-- JS `a || b` falls back to `b` when `a` is falsy. -/
lemma jsOr_of_eq {a b : String} (h : a = "") : jsOr a b = b := by
  simp [jsOr, jsTruthy, h]

/-- Membership in `(List.range n).map (fun i => s + i)` is exactly the
integer interval `[s, s + n)`. -/
lemma mem_rangeMap {s x : ℤ} {n : ℕ} :
    x ∈ (List.range n).map (fun i : ℕ => s + (i : ℤ)) ↔ s ≤ x ∧ x < s + n := by
  simp only [List.mem_map, List.mem_range]
  constructor
  · rintro ⟨i, hi, rfl⟩
    omega
  · rintro ⟨h1, h2⟩
    exact ⟨(x - s).toNat, by omega, by omega⟩

/-- `(List.range n).map (fun i => s + i)` is strictly increasing. -/
lemma pairwise_rangeMap (s : ℤ) (n : ℕ) :
    ((List.range n).map (fun i : ℕ => s + (i : ℤ))).Pairwise (· < ·) :=
  (List.pairwise_lt_range n).map _ (fun _ _ h => by omega)

/-- Consecutive elements of `(List.range n).map (fun i => s + i)` differ
by one. -/
lemma chain'_rangeMap (s : ℤ) (n : ℕ) :
    ((List.range n).map (fun i : ℕ => s + (i : ℤ))).Chain' (fun a b => b = a + 1) := by
  rw [List.chain'_map]
  cases n with
  | zero => simp
  | succ m =>
    rw [List.chain'_range_succ]
    intro i _
    push_cast
    ring

/-! ## Claims -/

/-- C7: the color derived from an event's severity maps Info to blue,
Warning to yellow and Error to red (the page's Tailwind classes for those
colors), and `getSeverityColor` is a total deterministic function of the
severity string alone — every other severity gets the default gray
class. -/
theorem C7_severity_color :
    getSeverityColor "Info" = "bg-blue-100 text-blue-800" ∧
    getSeverityColor "Warning" = "bg-yellow-100 text-yellow-800" ∧
    getSeverityColor "Error" = "bg-red-100 text-red-800" ∧
    ∀ s : String, s ≠ "Info" → s ≠ "Warning" → s ≠ "Error" →
      getSeverityColor s = "bg-gray-100 text-gray-800" := by
  refine ⟨by decide, by decide, by decide, ?_⟩
  intro s h1 h2 h3
  simp [getSeverityColor, h1, h2, h3]

/-- Witness for C7 at the concrete severities, fourth conjunct applied at
the unrecognized severity `"Debug"`. -/
theorem C7_severity_color_witness :
    getSeverityColor "Info" = "bg-blue-100 text-blue-800" ∧
    getSeverityColor "Warning" = "bg-yellow-100 text-yellow-800" ∧
    getSeverityColor "Error" = "bg-red-100 text-red-800" ∧
    getSeverityColor "Debug" = "bg-gray-100 text-gray-800" :=
  ⟨C7_severity_color.1, C7_severity_color.2.1, C7_severity_color.2.2.1,
    C7_severity_color.2.2.2 "Debug" (by decide) (by decide) (by decide)⟩

/-- C8: two dialog submissions that differ only in the webhook secret
produce identical create-notification requests — the secret is dropped by
the page submit handler (the request body type `CreateNotificationBody`
has exactly the fields `name`, `notification_type`, `url`), so the secret
value never leaves the client through this path. -/
theorem C8_secret_not_sent (selectedEvent webhookUrl secret1 secret2 description : String) :
    clientSubmitRequest selectedEvent webhookUrl secret1 description =
      clientSubmitRequest selectedEvent webhookUrl secret2 description := by
  unfold clientSubmitRequest dialogSubmit
  split
  · rfl
  · split
    · rfl
    · simp [pageSubmitBody]

/-- C2 counterexample: the events proxy does not pass the caller's query
parameters through — the backend query it builds for a request carrying
`page=2&severity=Error` is not that query string (it is empty: the route
handler takes no request object). -/
theorem C2_counterexample :
    eventsBackendQuery [("page", "2"), ("severity", "Error")] ≠
      [("page", "2"), ("severity", "Error")] := by
  decide

/-- C2 amended: the events proxy sends the backend a fixed request — path
`/api/events` and no query parameters — for every incoming query string,
so `page`, `per_page`, `severity` and `event_type` are ignored rather
than passed through. -/
theorem C2_amended (q1 q2 : List (String × String)) :
    eventsBackendQuery q1 = [] ∧
    eventsBackendQuery q1 = eventsBackendQuery q2 ∧
    eventsBackendPath q1 = "/api/events" ∧
    eventsBackendPath q1 = eventsBackendPath q2 :=
  ⟨rfl, rfl, rfl, rfl⟩

/-- C3 counterexample: with two active endpoints `n1`, `n2` of the same
account and an event whose `notifications_id` is `n1`'s id, the spec-side
`list_active(event.account_id)` contains `n2`, but the code attributes
the event to `n1` only: the endpoint set that receives the event differs
from `list_active`, and `n2`'s page shows no events. -/
theorem C3_counterexample :
    let n1 : Notification :=
      ⟨"n1", "acct", "u1", "hook one", "Webhook", "https://a.example/hook", true⟩
    let n2 : Notification :=
      ⟨"n2", "acct", "u1", "hook two", "Discord",
        "https://discord.com/api/webhooks/1/t", true⟩
    let e : Event :=
      ⟨"e1", "acct", "u1", "node1", "alias", "InvoiceSettled", "Info",
        "title", "desc", "n1", "2024-01-01T00:00:00Z"⟩
    n2 ∈ list_active [n1, n2] e.account_id ∧
    matchedEndpoints [n1, n2] e ≠ list_active [n1, n2] e.account_id ∧
    eventsForNotification [e] n2.id = [] := by
  decide

/-- C3 amended: an endpoint receives (displays) an event iff its id
equals the event's `notifications_id` — each event is bound to the single
endpoint named by that field, independently of the other active endpoints
of the account. -/
theorem C3_amended (registry : List Notification) (e : Event) (n : Notification) :
    n ∈ matchedEndpoints registry e ↔ n ∈ registry ∧ e.notifications_id = n.id := by
  simp [matchedEndpoints, List.mem_filter]

/-- C4 counterexample: two inputs to the endpoint-details page that are
identical except for one event's severity (no delivery-attempt data
exists anywhere in this code path) give different succeeded counts, so
the count is derived from event severities, not from `DeliveryAttempt`
rows. -/
theorem C4_counterexample :
    let eI : Event :=
      ⟨"e1", "acct", "u1", "node1", "alias", "InvoiceSettled", "Info",
        "title", "desc", "n1", "2024-01-01T00:00:00Z"⟩
    displayedSuccessCount [eI] "n1" = 1 ∧
    displayedSuccessCount [{ eI with severity := "Error" }] "n1" = 0 := by
  decide

/-- C4 amended: the succeeded count the endpoint-details page shows for a
notification endpoint is the number of that endpoint's events whose
severity is `"Info"` — an aggregate of event severities, not of
delivery-attempt records. -/
theorem C4_amended (allEvents : List Event) (nid : String) :
    displayedSuccessCount allEvents nid =
      (allEvents.filter
        (fun e => e.severity == "Info" && e.notifications_id == nid)).length := by
  simp [displayedSuccessCount, successCount, eventsForNotification,
    List.filter_filter]

/-- C9: when the server-side session has no access token, each of the
notification and event proxy routes (GET and POST `/api/notifications`,
GET `/api/events`, GET `/api/events/{id}`) returns HTTP 401 with an error
body and performs no backend request, for every request body, path id and
backend behaviour. -/
theorem C9_no_token_401 (session : Option String) (backend : Option BackendResp)
    (body : CreateNotificationBody) (id : String)
    (h : hasAccessToken session = false) :
    notificationsGET session backend =
      ⟨401, "Unauthorized. Please log in again.", false⟩ ∧
    notificationsPOST session body backend =
      ⟨401, "Unauthorized. Please log in again.", false⟩ ∧
    eventsGET session backend = ⟨401, "Unauthorized - no access token", false⟩ ∧
    eventDetailsGET session id backend =
      ⟨401, "Unauthorized - no access token", false⟩ := by
  simp [notificationsGET, notificationsPOST, eventsGET, eventDetailsGET, h]

/-- Witness for C9: a request with no session at all, against an
available backend. -/
theorem C9_no_token_401_witness :
    notificationsGET none (some ⟨true, 200, "", ""⟩) =
      ⟨401, "Unauthorized. Please log in again.", false⟩ ∧
    notificationsPOST none ⟨"n", "Webhook", "https://a.example"⟩
        (some ⟨true, 200, "", ""⟩) =
      ⟨401, "Unauthorized. Please log in again.", false⟩ ∧
    eventsGET none (some ⟨true, 200, "", ""⟩) =
      ⟨401, "Unauthorized - no access token", false⟩ ∧
    eventDetailsGET none "e1" (some ⟨true, 200, "", ""⟩) =
      ⟨401, "Unauthorized - no access token", false⟩ :=
  C9_no_token_401 none (some ⟨true, 200, "", ""⟩)
    ⟨"n", "Webhook", "https://a.example"⟩ "e1" (by decide)

/-- C1: for every authenticated create-notification request, the URL is
validated against the per-type scheme constraint before anything is
forwarded: a `Webhook` request whose url does not start with `https://`
gets 400 and no backend call; a `Discord` request whose url does not
start with `https://discord.com/api/webhooks/` gets 400 and no backend
call; a request with any other `notification_type` gets 400 and no
backend call; a forwarded request necessarily passed the checks; and a
forwarded request the backend accepts is answered with 201. -/
theorem C1_create_validation (session : Option String)
    (body : CreateNotificationBody) (backend : Option BackendResp)
    (htok : hasAccessToken session = true) :
    (body.notification_type = "Webhook" → jsStartsWith body.url "https://" = false →
      (notificationsPOST session body backend).status = 400 ∧
      (notificationsPOST session body backend).backendCalled = false) ∧
    (body.notification_type = "Discord" →
      jsStartsWith body.url "https://discord.com/api/webhooks/" = false →
      (notificationsPOST session body backend).status = 400 ∧
      (notificationsPOST session body backend).backendCalled = false) ∧
    (body.notification_type ≠ "Webhook" → body.notification_type ≠ "Discord" →
      (notificationsPOST session body backend).status = 400 ∧
      (notificationsPOST session body backend).backendCalled = false) ∧
    ((notificationsPOST session body backend).backendCalled = true →
      jsTruthy body.name = true ∧
      ((body.notification_type = "Webhook" ∧ jsStartsWith body.url "https://" = true) ∨
       (body.notification_type = "Discord" ∧
         jsStartsWith body.url "https://discord.com/api/webhooks/" = true))) ∧
    (∀ r : BackendResp, backend = some r → r.ok = true →
      (notificationsPOST session body backend).backendCalled = true →
      (notificationsPOST session body backend).status = 201) := by
  unfold notificationsPOST
  rw [htok]
  simp only [Bool.not_true, Bool.false_eq_true, if_false]
  refine ⟨?_, ?_, ?_, ?_, ?_⟩
  · intro htype hurl
    split_ifs with h1 h2 h3 h4 <;> simp_all
  · intro htype hurl
    split_ifs with h1 h2 h3 h4 <;> simp_all
  · intro h1 h2
    split_ifs with h3 h4 <;> simp_all
  · split_ifs with h1 h2 h3 h4 <;> try simp_all
    · have hd : body.notification_type = "Webhook" ∧
          jsStartsWith body.url "https://" = true ∨
          body.notification_type = "Discord" ∧
            jsStartsWith body.url "https://discord.com/api/webhooks/" = true := by
        by_cases hw : body.notification_type = "Webhook"
        · exact Or.inl ⟨hw, h3 hw⟩
        · exact Or.inr ⟨h2 hw, h4 (h2 hw)⟩
      rcases backend with _ | r <;> simp_all [jsTruthy]
  · intro r hb hok
    split_ifs with h1 h2 h3 h4 <;> simp_all

/-- Witness for C1 at concrete requests: an authenticated `Webhook`
request with an `http://` url is rejected with 400 before any backend
call. -/
theorem C1_create_validation_witness :
    (notificationsPOST (some "tok") ⟨"n", "Webhook", "http://a.example"⟩
      (some ⟨true, 200, "", ""⟩)).status = 400 ∧
    (notificationsPOST (some "tok") ⟨"n", "Webhook", "http://a.example"⟩
      (some ⟨true, 200, "", ""⟩)).backendCalled = false :=
  (C1_create_validation (some "tok") ⟨"n", "Webhook", "http://a.example"⟩
    (some ⟨true, 200, "", ""⟩) (by decide)).1 (by decide) (by decide)

/-- C6: every registry (notifications GET/POST) or event (events GET,
event-details GET) proxy request whose backend call returns a non-OK
response is answered synchronously with the backend's HTTP status code
and an error message taken from the backend's error body, falling back to
each route's fixed message when the backend body supplies none; and with
a 500-status response when the handler itself throws. -/
theorem C6_backend_error_propagation :
    (∀ (s : Option String) (r : BackendResp), hasAccessToken s = true →
      r.ok = false →
      (notificationsGET s (some r)).status = r.status ∧
      (r.messageField ≠ "" →
        (notificationsGET s (some r)).errorMsg = r.messageField) ∧
      (r.messageField = "" →
        (notificationsGET s (some r)).errorMsg = "Failed to retrieve notifications")) ∧
    (∀ (s : Option String) (body : CreateNotificationBody) (r : BackendResp),
      r.ok = false → (notificationsPOST s body (some r)).backendCalled = true →
      (notificationsPOST s body (some r)).status = r.status ∧
      (r.messageField ≠ "" →
        (notificationsPOST s body (some r)).errorMsg = r.messageField) ∧
      (r.messageField = "" →
        (notificationsPOST s body (some r)).errorMsg =
          "Failed to create " ++ jsToLower body.notification_type ++ " notification")) ∧
    (∀ (s : Option String) (r : BackendResp), hasAccessToken s = true →
      r.ok = false →
      (eventsGET s (some r)).status = r.status ∧
      (r.errorField ≠ "" → (eventsGET s (some r)).errorMsg = r.errorField) ∧
      (r.errorField = "" → r.messageField ≠ "" →
        (eventsGET s (some r)).errorMsg = r.messageField) ∧
      (r.errorField = "" → r.messageField = "" →
        (eventsGET s (some r)).errorMsg = "Failed to fetch events")) ∧
    (∀ (s : Option String) (i : String) (r : BackendResp),
      hasAccessToken s = true → r.ok = false →
      (eventDetailsGET s i (some r)).status = r.status ∧
      (r.errorField ≠ "" → (eventDetailsGET s i (some r)).errorMsg = r.errorField) ∧
      (r.errorField = "" → r.messageField ≠ "" →
        (eventDetailsGET s i (some r)).errorMsg = r.messageField) ∧
      (r.errorField = "" → r.messageField = "" →
        (eventDetailsGET s i (some r)).errorMsg = "Failed to fetch event details")) ∧
    (∀ (s : Option String) (body : CreateNotificationBody) (i : String),
      hasAccessToken s = true →
      (notificationsGET s none).status = 500 ∧
      ((notificationsPOST s body none).backendCalled = true →
        (notificationsPOST s body none).status = 500) ∧
      (eventsGET s none).status = 500 ∧
      (eventDetailsGET s i none).status = 500) := by
  refine ⟨?_, ?_, ?_, ?_, ?_⟩
  · intro s r hs hok
    refine ⟨by simp [notificationsGET, hs, hok], ?_, ?_⟩
    · intro h
      simp [notificationsGET, hs, hok, jsOr_of_ne h]
    · intro h
      simp [notificationsGET, hs, hok, jsOr_of_eq h]
  · intro s body r hok hcalled
    unfold notificationsPOST at hcalled ⊢
    split_ifs at hcalled ⊢ <;> simp_all
    constructor
    · intro h
      simp [jsOr, jsTruthy, h]
    · intro h
      simp [jsOr, jsTruthy, h]
  · intro s r hs hok
    refine ⟨by simp [eventsGET, hs, hok], ?_, ?_, ?_⟩
    · intro h1
      simp [eventsGET, hs, hok, jsOr_of_ne h1]
    · intro h1 h2
      simp [eventsGET, hs, hok, jsOr_of_eq h1, jsOr_of_ne h2]
    · intro h1 h2
      simp [eventsGET, hs, hok, jsOr_of_eq h1, jsOr_of_eq h2]
  · intro s i r hs hok
    refine ⟨by simp [eventDetailsGET, hs, hok], ?_, ?_, ?_⟩
    · intro h1
      simp [eventDetailsGET, hs, hok, jsOr_of_ne h1]
    · intro h1 h2
      simp [eventDetailsGET, hs, hok, jsOr_of_eq h1, jsOr_of_ne h2]
    · intro h1 h2
      simp [eventDetailsGET, hs, hok, jsOr_of_eq h1, jsOr_of_eq h2]
  · intro s body i hs
    refine ⟨by simp [notificationsGET, hs], ?_, by simp [eventsGET, hs],
      by simp [eventDetailsGET, hs]⟩
    unfold notificationsPOST
    rw [hs]
    split_ifs <;> simp

/-- Witness for C6: a backend that answers 502 with a `message` body to
the notifications GET route, and a handler throw on the events route. -/
theorem C6_backend_error_propagation_witness :
    (notificationsGET (some "tok") (some ⟨false, 502, "backend down", ""⟩)).status = 502 ∧
    (notificationsGET (some "tok") (some ⟨false, 502, "backend down", ""⟩)).errorMsg =
      "backend down" ∧
    (eventsGET (some "tok") none).status = 500 :=
  ⟨(C6_backend_error_propagation.1 (some "tok") ⟨false, 502, "backend down", ""⟩
      (by decide) (by decide)).1,
   (C6_backend_error_propagation.1 (some "tok") ⟨false, 502, "backend down", ""⟩
      (by decide) (by decide)).2.1 (by decide),
   (C6_backend_error_propagation.2.2.2.2 (some "tok") ⟨"n", "Webhook", "https://a"⟩
      "e1" (by decide)).2.2.1⟩

/-- Unfolding equation for one delivery step. -/
lemma deliverAux_step (outcomes : Nat → DeliveryOutcome) (n remaining : Nat) :
    deliverAux outcomes n (remaining + 1) =
      (let oc := outcomes n
       match classify oc with
       | .success => ([⟨n, .Succeeded, httpStatusOf oc, false⟩], .Succeeded)
       | .permanent => ([⟨n, .Failed, httpStatusOf oc, false⟩], .Failed)
       | .retryable =>
         if remaining = 0 then ([⟨n, .Failed, httpStatusOf oc, false⟩], .Failed)
         else
           let rest := deliverAux outcomes (n + 1) remaining
           (⟨n, .Failed, httpStatusOf oc, true⟩ :: rest.1, rest.2)) := rfl

/-- A 4xx status other than 429 classifies as a permanent failure. -/
lemma classify_4xx {s : Nat} (h2 : 400 ≤ s) (h3 : s < 500) (h4 : s ≠ 429) :
    classify (.response s) = .permanent := by
  show (if 200 ≤ s ∧ s < 300 then Classification.success
    else if 400 ≤ s ∧ s < 500 ∧ s ≠ 429 then Classification.permanent
    else Classification.retryable) = Classification.permanent
  rw [if_neg (by omega), if_pos ⟨h2, h3, h4⟩]

/-- C5: an HTTP 4xx response other than 429 on the first attempt of a
delivery (event, notification) pair makes the pair Failed immediately and
terminally — exactly one delivery-attempt row is written (with the 4xx
status and no retry scheduled) and no further attempt follows. -/
theorem C5_4xx_is_terminal (outcomes : Nat → DeliveryOutcome) (s : Nat)
    (h1 : outcomes 1 = .response s) (h2 : 400 ≤ s) (h3 : s < 500)
    (h4 : s ≠ 429) :
    (deliver outcomes).1 = [⟨1, .Failed, some s, false⟩] ∧
    (deliver outcomes).2 = .Failed := by
  have hstep : deliver outcomes = ([⟨1, .Failed, some s, false⟩], .Failed) := by
    show deliverAux outcomes 1 (4 + 1) = _
    rw [deliverAux_step]
    simp only [h1, classify_4xx h2 h3 h4, httpStatusOf]
  exact ⟨by rw [hstep], by rw [hstep]⟩

/-- Witness for C5: an endpoint that answers 404 — one attempt, terminal
failure, no retry. -/
theorem C5_4xx_is_terminal_witness :
    (deliver (fun _ => .response 404)).1 = [⟨1, .Failed, some 404, false⟩] ∧
    (deliver (fun _ => .response 404)).2 = .Failed :=
  C5_4xx_is_terminal (fun _ => .response 404) 404 rfl (by decide) (by decide)
    (by decide)

/-- Window bounds for the pagination computation on a valid page: the
window starts at or before the current page, ends at or after it, stays
inside `[1, totalPages]`, and spans exactly `min 5 totalPages` pages. -/
lemma pag_bounds (cp tp : ℤ) (h1 : 1 ≤ cp) (h2 : cp ≤ tp) :
    1 ≤ pagStart cp tp ∧ pagStart cp tp ≤ cp ∧ cp ≤ pagEnd cp tp ∧
    pagEnd cp tp ≤ tp ∧ pagEnd cp tp - pagStart cp tp + 1 = min 5 tp := by
  unfold pagStart pagEnd pagStart0
  split_ifs with h <;> omega

/-- C10: for `1 ≤ currentPage ≤ totalPages`, `getPaginationNumbers`
returns a contiguous (consecutive-integer) strictly increasing list of
integers, all within `[1, totalPages]`, of length `min 5 totalPages`,
containing `currentPage`; and for `totalPages = 0` it returns `[]`. -/
theorem C10_pagination (cp tp : ℤ) (h1 : 1 ≤ cp) (h2 : cp ≤ tp) :
    (getPaginationNumbers cp tp).Chain' (fun a b => b = a + 1) ∧
    (getPaginationNumbers cp tp).Pairwise (· < ·) ∧
    (∀ x ∈ getPaginationNumbers cp tp, 1 ≤ x ∧ x ≤ tp) ∧
    (getPaginationNumbers cp tp).length = (min 5 tp).toNat ∧
    cp ∈ getPaginationNumbers cp tp ∧
    getPaginationNumbers cp 0 = [] := by
  obtain ⟨b1, b2, b3, b4, b5⟩ := pag_bounds cp tp h1 h2
  have hzero : (pagEnd cp 0 - pagStart cp 0 + 1).toNat = 0 := by
    unfold pagStart pagEnd pagStart0
    split_ifs <;> omega
  unfold getPaginationNumbers
  refine ⟨chain'_rangeMap _ _, pairwise_rangeMap _ _, ?_, ?_, ?_, ?_⟩
  · intro x hx
    rw [mem_rangeMap] at hx
    omega
  · rw [List.length_map, List.length_range]
    omega
  · rw [mem_rangeMap]
    omega
  · rw [hzero]
    rfl

/-- Witness for C10 at `currentPage = 2`, `totalPages = 3`. -/
theorem C10_pagination_witness :
    (getPaginationNumbers 2 3).Chain' (fun a b => b = a + 1) ∧
    (getPaginationNumbers 2 3).Pairwise (· < ·) ∧
    (∀ x ∈ getPaginationNumbers 2 3, 1 ≤ x ∧ x ≤ 3) ∧
    (getPaginationNumbers 2 3).length = ((min 5 3 : ℤ)).toNat ∧
    (2 : ℤ) ∈ getPaginationNumbers 2 3 ∧
    getPaginationNumbers 2 0 = [] :=
  C10_pagination 2 3 (by decide) (by decide)

end NodeGaze
